import Mathlib

/-!
Shallow embedding of the local-first synchronization engine of the
ytmusic-rating-app repository (the `StorageService` in
`src/app/services/storage.service.ts`, remote-enabled variant).

Modelling conventions:
* A JS object used as a dictionary with non-index string keys is an
  `ObjMap`: an association list that preserves insertion order
  (assignment to an existing key keeps its position, assignment to a new
  key appends, `delete` removes the entry).  This matches the JS
  enumeration order of such objects, which `Object.values` exposes.
* `Date` values are `Nat` epoch milliseconds; call sites of `new Date()`
  and `Date.now()` take the current time as an explicit `now` argument,
  and locally generated ids are explicit arguments.
* A JS truthiness test on an object or array value is a key-presence
  test (objects and arrays, including the empty array, are truthy); a
  truthiness test on a nullable string is false exactly for null and the
  empty string.
* The Sync Task Queue (`schedule` / `enqueueAuthorizedTask`) appends a
  task descriptor to `remoteQueue`; task bodies run later, when the
  promise chain reaches them.  The chain itself is modelled separately
  (`Settled`, `scheduleLink`, `runChainFrom`) following the source text
  `remoteQueue.then(() => task().catch(log)).catch(log)`.
* The Readiness Gate is the pair `gate` (settled state of the current
  `readyPromise`) and `gateArmed` (whether `readyResolver` is non-null).
-/

namespace Storage

/-- Association-list model of a JS object used as a string-keyed map. -/
abbrev ObjMap (α : Type) := List (String × α)

/-- Property read `m[k]`: the value stored at key `k`, if present. -/
def ObjMap.get {α : Type} (m : ObjMap α) (k : String) : Option α :=
  (m.find? (fun p => p.1 == k)).map (fun p => p.2)

/-- Key-presence test, the truthiness of `m[k]` for object or array values. -/
def ObjMap.has {α : Type} (m : ObjMap α) (k : String) : Bool :=
  m.any (fun p => p.1 == k)

/-- Property write `m[k] = v`: update in place if `k` is present (keeping
its enumeration position), otherwise append a new entry. -/
def ObjMap.set {α : Type} : ObjMap α → String → α → ObjMap α
  | [], k, v => [(k, v)]
  | p :: m, k, v => if p.1 == k then (k, v) :: m else p :: ObjMap.set m k v

/-- Property removal `delete m[k]`. -/
def ObjMap.del {α : Type} (m : ObjMap α) (k : String) : ObjMap α :=
  m.filter (fun p => !(p.1 == k))

/-- JS `Object.values(m)`, in enumeration (insertion) order. -/
def ObjMap.values {α : Type} (m : ObjMap α) : List α :=
  m.map (fun p => p.2)

/-- JS `Object.keys(m)`, in enumeration (insertion) order. -/
def ObjMap.keys {α : Type} (m : ObjMap α) : List String :=
  m.map (fun p => p.1)

/-- Song model (`src/app/models/song.model.ts`). -/
structure Song where
  id : String
  videoId : String
  title : String
  artist : String
  album : Option String := none
  duration : Option String := none
  thumbnailUrl : Option String := none
  playlistId : Option String := none
deriving Repr, DecidableEq

/-- SongRating model (`src/app/models/song.model.ts`); `ratedAt` is a Date. -/
structure SongRating where
  songId : String
  userId : String
  rating : Int
  ratedAt : Nat
deriving Repr, DecidableEq

/-- Theme model (`src/app/models/theme.model.ts`). -/
structure Theme where
  id : String
  name : String
  color : String
  userId : String
  createdAt : Nat
deriving Repr, DecidableEq

/-- Playlist filter model (`src/app/models/playlist.model.ts`); the engine
treats it as an uninterpreted payload, so the fields are carried verbatim. -/
structure PlaylistFilters where
  minRating : Option Int := none
  maxRating : Option Int := none
  includeUnrated : Option Bool := none
  themeIds : Option (List String) := none
deriving Repr, DecidableEq

/-- LocalPlaylist model (`src/app/models/playlist.model.ts`).  The JS
`starred?: boolean` field reads as false when absent, so it is a `Bool`
that defaults to `false`. -/
structure LocalPlaylist where
  id : String
  userId : String
  name : String
  description : Option String := none
  songIds : List String
  filters : Option PlaylistFilters := none
  createdAt : Nat
  updatedAt : Nat
  thumbnailUrl : Option String := none
  starred : Bool := false
deriving Repr, DecidableEq

/-- Rating entry of a `LibraryResponse` (`api.service.ts`). -/
structure LibraryRatingEntry where
  songId : String
  rating : Int
  ratedAt : Option Nat := none
deriving Repr, DecidableEq

/-- Song entry of a `LibraryResponse`: a `Song` whose `videoId` and
`artist` may be absent remotely (`song.videoId ?? ''`). -/
structure LibrarySong where
  id : String
  videoId : Option String := none
  title : String
  artist : Option String := none
  album : Option String := none
  duration : Option String := none
  thumbnailUrl : Option String := none
  playlistId : Option String := none
deriving Repr, DecidableEq

/-- Theme entry of a `LibraryResponse`; `createdAt` may be absent. -/
structure LibraryTheme where
  id : String
  name : String
  color : String
  userId : String
  createdAt : Option Nat := none
deriving Repr, DecidableEq

/-- Song-theme link entry of a `LibraryResponse`. -/
structure LibrarySongTheme where
  id : String
  songId : String
  themeId : String
deriving Repr, DecidableEq

/-- Playlist entry of a `LibraryResponse`; timestamps and `songIds` may be
absent remotely. -/
structure LibraryPlaylist where
  id : String
  userId : String
  name : String
  description : Option String := none
  songIds : Option (List String) := none
  filters : Option PlaylistFilters := none
  createdAt : Option Nat := none
  updatedAt : Option Nat := none
  thumbnailUrl : Option String := none
  starred : Bool := false
deriving Repr, DecidableEq

/-- Full snapshot payload returned by `apiService.getLibrary`
(`LibraryResponse` in `api.service.ts`). -/
structure LibraryResponse where
  songs : List LibrarySong
  ratings : List LibraryRatingEntry
  themes : List LibraryTheme
  songThemes : List LibrarySongTheme
  playlists : List LibraryPlaylist
deriving Repr, DecidableEq

/-- Descriptor of one pending Remote Sync Client invocation, one
constructor per `apiService` call site inside a queued task. -/
inductive RemoteTask where
  | syncFromRemote : RemoteTask
  | saveRating : Song → Int → RemoteTask
  | deleteRating : String → RemoteTask
  | deleteRatingsBatch : List String → RemoteTask
  | saveTheme : Theme → RemoteTask
  | deleteTheme : String → RemoteTask
  | assignTheme : String → String → RemoteTask
  | removeTheme : String → String → RemoteTask
  | saveImportedSongs : List Song → RemoteTask
  | removeImportedSong : String → RemoteTask
  | removeImportedSongsBatch : List String → RemoteTask
  | savePlaylist : LocalPlaylist → RemoteTask
  | deletePlaylist : String → RemoteTask
  | deletePlaylistsBatch : List String → RemoteTask
deriving Repr, DecidableEq

/-- Settled state of the current `readyPromise`. -/
inductive GateState where
  | pending : GateState
  | resolved : GateState
deriving Repr, DecidableEq

/-- Fields of `StorageService`.  `remoteQueue` lists the descriptors of
the tasks scheduled so far, in submission order, that the promise chain
has not yet run. -/
structure StorageState where
  remoteEnabled : Bool
  ratingsDb : ObjMap (ObjMap SongRating)
  themesDb : ObjMap (ObjMap Theme)
  songThemesDb : ObjMap (ObjMap (List String))
  importedSongsDb : ObjMap (ObjMap Song)
  localPlaylistsDb : ObjMap (ObjMap LocalPlaylist)
  currentUserId : Option String
  remoteQueue : List RemoteTask
  gate : GateState
  gateArmed : Bool
deriving Repr, DecidableEq

/-- State after the constructor ran with remote storage enabled and no
already-authenticated user: empty tables, `resetReadyPromise(true)`. -/
def initialState : StorageState where
  remoteEnabled := true
  ratingsDb := []
  themesDb := []
  songThemesDb := []
  importedSongsDb := []
  localPlaylistsDb := []
  currentUserId := none
  remoteQueue := []
  gate := GateState.resolved
  gateArmed := false

/-- isCurrentUser: `!!this.currentUserId && this.currentUserId === userId`. -/
def isCurrentUser (st : StorageState) (userId : String) : Bool :=
  match st.currentUserId with
  | none => false
  | some uid => uid == userId

/-- markReady: run and clear `readyResolver` when it is non-null. -/
def markReady (st : StorageState) : StorageState :=
  if st.gateArmed then
    { st with gate := GateState.resolved, gateArmed := false }
  else
    st

/-- resetReadyPromise: install a fresh pending promise and resolver, then
optionally resolve it at once. -/
def resetReadyPromise (st : StorageState) (resolveImmediately : Bool) : StorageState :=
  let st1 := { st with gate := GateState.pending, gateArmed := true }
  if resolveImmediately then markReady st1 else st1

/-- schedule: chain one more task onto `remoteQueue`.  In the model this
records the descriptor; execution order is covered by the chain model
below. -/
def schedule (st : StorageState) (task : RemoteTask) : StorageState :=
  { st with remoteQueue := st.remoteQueue ++ [task] }

/-- enqueueAuthorizedTask: a no-op when remote storage is disabled,
otherwise schedules the token-guarded task. -/
def enqueueAuthorizedTask (st : StorageState) (task : RemoteTask) : StorageState :=
  if st.remoteEnabled then schedule st task else st

/-- getRating: `db[userId]?.[songId] || null`. -/
def getRating (st : StorageState) (userId songId : String) : Option SongRating :=
  (st.ratingsDb.get userId).bind (fun m => m.get songId)

/-- getAllRatings: `Object.values(db[userId] || {})`. -/
def getAllRatings (st : StorageState) (userId : String) : List SongRating :=
  ((st.ratingsDb.get userId).getD []).values

/-- getRatingsByRange: filter of `getAllRatings` by rating bounds. -/
def getRatingsByRange (st : StorageState) (userId : String) (minRating maxRating : Int) :
    List SongRating :=
  (getAllRatings st userId).filter (fun r => minRating ≤ r.rating && r.rating ≤ maxRating)

/-- getImportedSong: `db[userId]?.[songId] || null`. -/
def getImportedSong (st : StorageState) (userId songId : String) : Option Song :=
  (st.importedSongsDb.get userId).bind (fun m => m.get songId)

/-- getImportedSongs: `Object.values(db[userId] || {})`. -/
def getImportedSongs (st : StorageState) (userId : String) : List Song :=
  ((st.importedSongsDb.get userId).getD []).values

/-- saveRating: write the record into `ratingsDb[userId][songId]`, then,
when remote storage is enabled and `userId` is the current user, enqueue
one `apiService.saveRating` task carrying the imported song when it is
cached or the fallback record otherwise.  There is no range check on
`rating`. -/
def saveRating (st : StorageState) (userId songId : String) (rating : Int) (now : Nat) :
    StorageState :=
  let userMap := (st.ratingsDb.get userId).getD []
  let songRating : SongRating :=
    { songId := songId, userId := userId, rating := rating, ratedAt := now }
  let st1 :=
    { st with ratingsDb := st.ratingsDb.set userId (userMap.set songId songRating) }
  if st1.remoteEnabled && isCurrentUser st1 userId then
    let songForRemote :=
      (getImportedSong st1 userId songId).getD
        { id := songId, videoId := songId, title := "Unknown Song", artist := "" }
    enqueueAuthorizedTask st1 (RemoteTask.saveRating songForRemote rating)
  else
    st1

/-- deleteRating: remove the record when present and enqueue one
`apiService.deleteRating` task. -/
def deleteRating (st : StorageState) (userId songId : String) : StorageState :=
  match st.ratingsDb.get userId with
  | none => st
  | some userMap =>
    if userMap.has songId then
      let st1 := { st with ratingsDb := st.ratingsDb.set userId (userMap.del songId) }
      if st1.remoteEnabled && isCurrentUser st1 userId then
        enqueueAuthorizedTask st1 (RemoteTask.deleteRating songId)
      else
        st1
    else
      st

/-- clearUserRatings: drop the whole per-user table and enqueue one batch
delete task over the removed song ids when any were present. -/
def clearUserRatings (st : StorageState) (userId : String) : StorageState :=
  match st.ratingsDb.get userId with
  | none => st
  | some userMap =>
    let songIds := userMap.keys
    let st1 := { st with ratingsDb := st.ratingsDb.del userId }
    if st1.remoteEnabled && isCurrentUser st1 userId && !songIds.isEmpty then
      enqueueAuthorizedTask st1 (RemoteTask.deleteRatingsBatch songIds)
    else
      st1

/-- upsertThemeLocally: write the theme into `themesDb[userId][theme.id]`. -/
def upsertThemeLocally (st : StorageState) (userId : String) (theme : Theme) : StorageState :=
  let userMap := (st.themesDb.get userId).getD []
  { st with themesDb := st.themesDb.set userId (userMap.set theme.id theme) }

/-- persistThemeToRemote: enqueue one `apiService.saveTheme` task when
remote storage is enabled and `userId` is the current user. -/
def persistThemeToRemote (st : StorageState) (userId : String) (theme : Theme) : StorageState :=
  if st.remoteEnabled && isCurrentUser st userId then
    enqueueAuthorizedTask st (RemoteTask.saveTheme theme)
  else
    st

/-- createTheme: build a theme with a locally generated id, store it
locally, enqueue its remote persistence, and return it. -/
def createTheme (st : StorageState) (userId name color : String) (generatedId : String)
    (now : Nat) : Theme × StorageState :=
  let theme : Theme :=
    { id := generatedId, name := name, color := color, userId := userId, createdAt := now }
  let st1 := upsertThemeLocally st userId theme
  (theme, persistThemeToRemote st1 userId theme)

/-- getThemes: `Object.values(db[userId] || {})`. -/
def getThemes (st : StorageState) (userId : String) : List Theme :=
  ((st.themesDb.get userId).getD []).values

/-- getTheme: `db[userId]?.[themeId] || null`. -/
def getTheme (st : StorageState) (userId themeId : String) : Option Theme :=
  (st.themesDb.get userId).bind (fun m => m.get themeId)

/-- updateTheme: overwrite name and color in place when the theme exists,
then enqueue its remote persistence. -/
def updateTheme (st : StorageState) (userId themeId name color : String) : StorageState :=
  match getTheme st userId themeId with
  | none => st
  | some existing =>
    let updated := { existing with name := name, color := color }
    let userMap := (st.themesDb.get userId).getD []
    let st1 := { st with themesDb := st.themesDb.set userId (userMap.set themeId updated) }
    persistThemeToRemote st1 userId updated

/-- getSongThemes: `db[userId]?.[songId] || []`. -/
def getSongThemes (st : StorageState) (userId songId : String) : List String :=
  ((st.songThemesDb.get userId).bind (fun m => m.get songId)).getD []

/-- removeThemeFromAllSongs: filter the theme id out of every song entry
of the per-user song-theme table. -/
def removeThemeFromAllSongs (st : StorageState) (userId themeId : String) : StorageState :=
  match st.songThemesDb.get userId with
  | none => st
  | some userMap =>
    let userMap1 := userMap.map (fun p => (p.1, p.2.filter (fun id => !(id == themeId))))
    { st with songThemesDb := st.songThemesDb.set userId userMap1 }

/-- deleteTheme: remove the theme when present, enqueue one
`apiService.deleteTheme` task, then strip the theme from every song. -/
def deleteTheme (st : StorageState) (userId themeId : String) : StorageState :=
  match st.themesDb.get userId with
  | none => st
  | some userMap =>
    if userMap.has themeId then
      let st1 := { st with themesDb := st.themesDb.set userId (userMap.del themeId) }
      let st2 :=
        if st1.remoteEnabled && isCurrentUser st1 userId then
          enqueueAuthorizedTask st1 (RemoteTask.deleteTheme themeId)
        else
          st1
      removeThemeFromAllSongs st2 userId themeId
    else
      st

/-- assignThemeToSong: append the theme id when it is not already linked,
and enqueue one `apiService.assignTheme` task. -/
def assignThemeToSong (st : StorageState) (userId songId themeId : String) : StorageState :=
  let userMap := (st.songThemesDb.get userId).getD []
  let links := (userMap.get songId).getD []
  if links.contains themeId then
    st
  else
    let st1 :=
      { st with songThemesDb := st.songThemesDb.set userId (userMap.set songId (links ++ [themeId])) }
    if st1.remoteEnabled && isCurrentUser st1 userId then
      enqueueAuthorizedTask st1 (RemoteTask.assignTheme songId themeId)
    else
      st1

/-- removeThemeFromSong: filter the theme id out of the link list when the
song has an entry (any array, even empty, passes the truthiness guard),
and enqueue one `apiService.removeTheme` task. -/
def removeThemeFromSong (st : StorageState) (userId songId themeId : String) : StorageState :=
  match (st.songThemesDb.get userId).bind (fun m => m.get songId) with
  | none => st
  | some links =>
    let userMap := (st.songThemesDb.get userId).getD []
    let st1 :=
      { st with songThemesDb :=
          st.songThemesDb.set userId (userMap.set songId (links.filter (fun id => !(id == themeId)))) }
    if st1.remoteEnabled && isCurrentUser st1 userId then
      enqueueAuthorizedTask st1 (RemoteTask.removeTheme songId themeId)
    else
      st1

/-- getSongsByTheme: the song ids whose link list contains the theme. -/
def getSongsByTheme (st : StorageState) (userId themeId : String) : List String :=
  (((st.songThemesDb.get userId).getD []).filter (fun p => p.2.contains themeId)).map
    (fun p => p.1)

/-- saveImportedSongs: upsert each song keyed by its id, then enqueue one
`apiService.saveImportedSongs` task when any song was given. -/
def saveImportedSongs (st : StorageState) (userId : String) (songs : List Song) : StorageState :=
  let userMap := (st.importedSongsDb.get userId).getD []
  let userMap1 := songs.foldl (fun acc song => acc.set song.id song) userMap
  let st1 := { st with importedSongsDb := st.importedSongsDb.set userId userMap1 }
  if st1.remoteEnabled && isCurrentUser st1 userId && !songs.isEmpty then
    enqueueAuthorizedTask st1 (RemoteTask.saveImportedSongs songs)
  else
    st1

/-- removeImportedSong: remove the song record when present and enqueue
one `apiService.removeImportedSong` task. -/
def removeImportedSong (st : StorageState) (userId songId : String) : StorageState :=
  match st.importedSongsDb.get userId with
  | none => st
  | some userMap =>
    if userMap.has songId then
      let st1 := { st with importedSongsDb := st.importedSongsDb.set userId (userMap.del songId) }
      if st1.remoteEnabled && isCurrentUser st1 userId then
        enqueueAuthorizedTask st1 (RemoteTask.removeImportedSong songId)
      else
        st1
    else
      st

/-- clearImportedSongs: drop the per-user table and enqueue one batch
removal task over the removed ids when any were present. -/
def clearImportedSongs (st : StorageState) (userId : String) : StorageState :=
  match st.importedSongsDb.get userId with
  | none => st
  | some userMap =>
    let songIds := userMap.keys
    let st1 := { st with importedSongsDb := st.importedSongsDb.del userId }
    if st1.remoteEnabled && isCurrentUser st1 userId && !songIds.isEmpty then
      enqueueAuthorizedTask st1 (RemoteTask.removeImportedSongsBatch songIds)
    else
      st1

/-- deleteSong: cascade of three synchronous local removals, each of which
enqueues its own remote task: the imported song record, the rating, and
every song-theme link of the song (iterating the link list captured
before the removals start). -/
def deleteSong (st : StorageState) (userId songId : String) : StorageState :=
  let st1 := removeImportedSong st userId songId
  let st2 := deleteRating st1 userId songId
  let songThemes := getSongThemes st2 userId songId
  songThemes.foldl (fun acc themeId => removeThemeFromSong acc userId songId themeId) st2

/-- upsertLocalPlaylist: write the playlist into
`localPlaylistsDb[userId][playlist.id]`. -/
def upsertLocalPlaylist (st : StorageState) (userId : String) (playlist : LocalPlaylist) :
    StorageState :=
  let userMap := (st.localPlaylistsDb.get userId).getD []
  { st with localPlaylistsDb := st.localPlaylistsDb.set userId (userMap.set playlist.id playlist) }

/-- persistPlaylistToRemote: enqueue one `apiService.savePlaylist` task
when remote storage is enabled and `userId` is the current user. -/
def persistPlaylistToRemote (st : StorageState) (userId : String) (playlist : LocalPlaylist) :
    StorageState :=
  if st.remoteEnabled && isCurrentUser st userId then
    enqueueAuthorizedTask st (RemoteTask.savePlaylist playlist)
  else
    st

/-- createLocalPlaylist: build a playlist with a locally generated id and
empty song list, store it locally, enqueue its remote persistence, and
return it.  The created object carries no `starred` property, which reads
as false. -/
def createLocalPlaylist (st : StorageState) (userId name : String)
    (description : Option String) (filters : Option PlaylistFilters) (generatedId : String)
    (now : Nat) : LocalPlaylist × StorageState :=
  let playlist : LocalPlaylist :=
    { id := generatedId
      userId := userId
      name := name
      description := description
      songIds := []
      filters := filters
      createdAt := now
      updatedAt := now }
  let st1 := upsertLocalPlaylist st userId playlist
  (playlist, persistPlaylistToRemote st1 userId playlist)

/-- Comparator passed to `Array.prototype.sort` by `getLocalPlaylists`:
starred playlists first, then later creation time first. -/
def playlistCmp (a b : LocalPlaylist) : Int :=
  if a.starred && !b.starred then -1
  else if !a.starred && b.starred then 1
  else (b.createdAt : Int) - (a.createdAt : Int)

/-- Ordering relation induced by `playlistCmp`: `a` may stay before `b`
exactly when the comparator does not demand the swap. -/
def playlistBefore (a b : LocalPlaylist) : Prop :=
  playlistCmp a b ≤ 0

instance : DecidableRel playlistBefore := fun a b =>
  inferInstanceAs (Decidable (playlistCmp a b ≤ 0))

instance : IsTotal LocalPlaylist playlistBefore where
  total a b := by
    unfold playlistBefore playlistCmp
    obtain ⟨_, _, _, _, _, _, ca, _, _, sa⟩ := a
    obtain ⟨_, _, _, _, _, _, cb, _, _, sb⟩ := b
    cases sa <;> cases sb <;> simp <;> omega

instance : IsTrans LocalPlaylist playlistBefore where
  trans a b c hab hbc := by
    unfold playlistBefore playlistCmp at hab hbc ⊢
    obtain ⟨_, _, _, _, _, _, ca, _, _, sa⟩ := a
    obtain ⟨_, _, _, _, _, _, cb, _, _, sb⟩ := b
    obtain ⟨_, _, _, _, _, _, cc, _, _, sc⟩ := c
    cases sa <;> cases sb <;> cases sc <;> simp at hab hbc ⊢ <;> omega

/-- getLocalPlaylists: `Object.values` of the per-user table, sorted by
the starred-first / newest-first comparator.  `Array.prototype.sort` is a
stable comparator sort, modelled by stable insertion sort. -/
def getLocalPlaylists (st : StorageState) (userId : String) : List LocalPlaylist :=
  List.insertionSort playlistBefore (((st.localPlaylistsDb.get userId).getD []).values)

/-- getLocalPlaylist: `db[userId]?.[playlistId] || null`. -/
def getLocalPlaylist (st : StorageState) (userId playlistId : String) : Option LocalPlaylist :=
  (st.localPlaylistsDb.get userId).bind (fun m => m.get playlistId)

/-- Field-wise update object of `updateLocalPlaylist`: the optional-field
record over `LocalPlaylist` minus `id`, `userId` and `createdAt`; absent
fields keep the existing value. -/
structure PlaylistUpdates where
  name : Option String := none
  description : Option (Option String) := none
  songIds : Option (List String) := none
  filters : Option (Option PlaylistFilters) := none
  updatedAt : Option Nat := none
  thumbnailUrl : Option (Option String) := none
  starred : Option Bool := none
deriving Repr, DecidableEq

/-- Spread `{ ...existing, ...updates }` over a playlist. -/
def applyPlaylistUpdates (existing : LocalPlaylist) (updates : PlaylistUpdates) :
    LocalPlaylist :=
  { existing with
    name := updates.name.getD existing.name
    description := updates.description.getD existing.description
    songIds := updates.songIds.getD existing.songIds
    filters := updates.filters.getD existing.filters
    updatedAt := updates.updatedAt.getD existing.updatedAt
    thumbnailUrl := updates.thumbnailUrl.getD existing.thumbnailUrl
    starred := updates.starred.getD existing.starred }

/-- updateLocalPlaylist: merge the updates over the existing playlist,
stamp `updatedAt`, store locally, enqueue remote persistence. -/
def updateLocalPlaylist (st : StorageState) (userId playlistId : String)
    (updates : PlaylistUpdates) (now : Nat) : StorageState :=
  match getLocalPlaylist st userId playlistId with
  | none => st
  | some existing =>
    let updated := { applyPlaylistUpdates existing updates with updatedAt := now }
    let st1 := upsertLocalPlaylist st userId updated
    persistPlaylistToRemote st1 userId updated

/-- deleteLocalPlaylist: remove the playlist when present and enqueue one
`apiService.deletePlaylist` task. -/
def deleteLocalPlaylist (st : StorageState) (userId playlistId : String) : StorageState :=
  match st.localPlaylistsDb.get userId with
  | none => st
  | some userMap =>
    if userMap.has playlistId then
      let st1 :=
        { st with localPlaylistsDb := st.localPlaylistsDb.set userId (userMap.del playlistId) }
      if st1.remoteEnabled && isCurrentUser st1 userId then
        enqueueAuthorizedTask st1 (RemoteTask.deletePlaylist playlistId)
      else
        st1
    else
      st

/-- addSongToLocalPlaylist: append the song id when it is not already in
the playlist, stamp `updatedAt`, store, enqueue remote persistence;
otherwise leave the state untouched. -/
def addSongToLocalPlaylist (st : StorageState) (userId playlistId songId : String) (now : Nat) :
    StorageState :=
  match getLocalPlaylist st userId playlistId with
  | none => st
  | some playlist =>
    if playlist.songIds.contains songId then
      st
    else
      let updated :=
        { playlist with songIds := playlist.songIds ++ [songId], updatedAt := now }
      let userMap := (st.localPlaylistsDb.get userId).getD []
      let st1 :=
        { st with localPlaylistsDb := st.localPlaylistsDb.set userId (userMap.set playlistId updated) }
      persistPlaylistToRemote st1 userId updated

/-- addSongsToLocalPlaylist: append each not-yet-present song id in the
given order, stamp `updatedAt`, store, enqueue remote persistence. -/
def addSongsToLocalPlaylist (st : StorageState) (userId playlistId : String)
    (songIds : List String) (now : Nat) : StorageState :=
  match getLocalPlaylist st userId playlistId with
  | none => st
  | some playlist =>
    let newSongIds :=
      songIds.foldl (fun acc songId => if acc.contains songId then acc else acc ++ [songId])
        playlist.songIds
    let updated := { playlist with songIds := newSongIds, updatedAt := now }
    let userMap := (st.localPlaylistsDb.get userId).getD []
    let st1 :=
      { st with localPlaylistsDb := st.localPlaylistsDb.set userId (userMap.set playlistId updated) }
    persistPlaylistToRemote st1 userId updated

/-- removeSongFromLocalPlaylist: filter the song id out, stamp
`updatedAt`, store, enqueue remote persistence. -/
def removeSongFromLocalPlaylist (st : StorageState) (userId playlistId songId : String)
    (now : Nat) : StorageState :=
  match getLocalPlaylist st userId playlistId with
  | none => st
  | some playlist =>
    let updated :=
      { playlist with
        songIds := playlist.songIds.filter (fun id => !(id == songId))
        updatedAt := now }
    let userMap := (st.localPlaylistsDb.get userId).getD []
    let st1 :=
      { st with localPlaylistsDb := st.localPlaylistsDb.set userId (userMap.set playlistId updated) }
    persistPlaylistToRemote st1 userId updated

/-- getLocalPlaylistSongs: resolve the ordered song ids of the playlist
against the imported songs, dropping unresolved ids. -/
def getLocalPlaylistSongs (st : StorageState) (userId playlistId : String) : List Song :=
  match getLocalPlaylist st userId playlistId with
  | none => []
  | some playlist =>
    let importedSongs := getImportedSongs st userId
    (playlist.songIds.map (fun songId => importedSongs.find? (fun s => s.id == songId))).filterMap
      (fun o => o)

/-- clearLocalPlaylists: drop the per-user table and enqueue one batch
delete task over the removed playlist ids when any were present. -/
def clearLocalPlaylists (st : StorageState) (userId : String) : StorageState :=
  match st.localPlaylistsDb.get userId with
  | none => st
  | some userMap =>
    let playlistIds := userMap.keys
    let st1 := { st with localPlaylistsDb := st.localPlaylistsDb.del userId }
    if st1.remoteEnabled && isCurrentUser st1 userId && !playlistIds.isEmpty then
      enqueueAuthorizedTask st1 (RemoteTask.deletePlaylistsBatch playlistIds)
    else
      st1

/-- togglePlaylistStarred: flip the starred flag, stamp `updatedAt`,
store, enqueue remote persistence. -/
def togglePlaylistStarred (st : StorageState) (userId playlistId : String) (now : Nat) :
    StorageState :=
  match getLocalPlaylist st userId playlistId with
  | none => st
  | some playlist =>
    let updated := { playlist with starred := !playlist.starred, updatedAt := now }
    let userMap := (st.localPlaylistsDb.get userId).getD []
    let st1 :=
      { st with localPlaylistsDb := st.localPlaylistsDb.set userId (userMap.set playlistId updated) }
    persistPlaylistToRemote st1 userId updated

/-- clearLocalDataForUser: delete the per-user entry of every one of the
five tables. -/
def clearLocalDataForUser (st : StorageState) (userId : String) : StorageState :=
  { st with
    ratingsDb := st.ratingsDb.del userId
    themesDb := st.themesDb.del userId
    songThemesDb := st.songThemesDb.del userId
    importedSongsDb := st.importedSongsDb.del userId
    localPlaylistsDb := st.localPlaylistsDb.del userId }

/-- applyRatings of hydrateCache: replace the per-user ratings table with
the payload entries, defaulting `ratedAt` to the current time. -/
def applyRatings (st : StorageState) (userId : String) (library : LibraryResponse) (now : Nat) :
    StorageState :=
  let userMap :=
    library.ratings.foldl
      (fun acc entry =>
        ObjMap.set acc entry.songId
          { songId := entry.songId
            userId := userId
            rating := entry.rating
            ratedAt := entry.ratedAt.getD now })
      ([] : ObjMap SongRating)
  { st with ratingsDb := st.ratingsDb.set userId userMap }

/-- applyImportedSongs of hydrateCache: replace the per-user imported-song
table with the payload songs, defaulting `videoId` and `artist` to the
empty string. -/
def applyImportedSongs (st : StorageState) (userId : String) (library : LibraryResponse) :
    StorageState :=
  let userMap :=
    library.songs.foldl
      (fun acc song =>
        ObjMap.set acc song.id
          { id := song.id
            videoId := song.videoId.getD ""
            title := song.title
            artist := song.artist.getD ""
            album := song.album
            duration := song.duration
            thumbnailUrl := song.thumbnailUrl
            playlistId := song.playlistId })
      ([] : ObjMap Song)
  { st with importedSongsDb := st.importedSongsDb.set userId userMap }

/-- applyThemes of hydrateCache: replace the per-user theme table with the
payload themes, defaulting `createdAt` to the current time. -/
def applyThemes (st : StorageState) (userId : String) (library : LibraryResponse) (now : Nat) :
    StorageState :=
  let userMap :=
    library.themes.foldl
      (fun acc theme =>
        ObjMap.set acc theme.id
          { id := theme.id
            name := theme.name
            color := theme.color
            userId := theme.userId
            createdAt := theme.createdAt.getD now })
      ([] : ObjMap Theme)
  { st with themesDb := st.themesDb.set userId userMap }

/-- applySongThemes of hydrateCache: group the payload links by song id,
in payload order, and replace the per-user table with the grouping. -/
def applySongThemes (st : StorageState) (userId : String) (library : LibraryResponse) :
    StorageState :=
  let mapping :=
    library.songThemes.foldl
      (fun acc link =>
        ObjMap.set acc link.songId (((ObjMap.get acc link.songId).getD []) ++ [link.themeId]))
      ([] : ObjMap (List String))
  { st with songThemesDb := st.songThemesDb.set userId mapping }

/-- applyPlaylists of hydrateCache: replace the per-user playlist table
with the payload playlists, defaulting timestamps to the current time and
`songIds` to the empty list. -/
def applyPlaylists (st : StorageState) (userId : String) (library : LibraryResponse) (now : Nat) :
    StorageState :=
  let userMap :=
    library.playlists.foldl
      (fun acc playlist =>
        ObjMap.set acc playlist.id
          { id := playlist.id
            userId := playlist.userId
            name := playlist.name
            description := playlist.description
            songIds := playlist.songIds.getD []
            filters := playlist.filters
            createdAt := playlist.createdAt.getD now
            updatedAt := playlist.updatedAt.getD now
            thumbnailUrl := playlist.thumbnailUrl
            starred := playlist.starred })
      ([] : ObjMap LocalPlaylist)
  { st with localPlaylistsDb := st.localPlaylistsDb.set userId userMap }

/-- hydrateCache: apply the full snapshot, table by table. -/
def hydrateCache (st : StorageState) (userId : String) (library : LibraryResponse) (now : Nat) :
    StorageState :=
  applyPlaylists
    (applySongThemes (applyThemes (applyImportedSongs (applyRatings st userId library now) userId library) userId library now) userId library)
    userId library now

/-- Continuation of `syncFromRemote` after the `getLibrary` promise
resolves: hydrate the cache for whichever user is current at resolution
time, then mark the gate ready (the `finally` clause).  JS coerces a null
`currentUserId` to the property key "null". -/
def syncResolve (st : StorageState) (library : LibraryResponse) (now : Nat) : StorageState :=
  markReady (hydrateCache st (st.currentUserId.getD "null") library now)

/-- Truthiness of the nullable access-token string. -/
def tokenTruthy : Option String → Bool
  | none => false
  | some s => !s.isEmpty

/-- syncFromRemote as one uninterrupted attempt: token acquisition may
throw or produce no usable token, the snapshot fetch may resolve or
reject; every path runs `markReady` by the `try/catch/finally` shape. -/
def syncFromRemote (st : StorageState) (tokenRes : Except Unit (Option String))
    (fetchRes : Except Unit LibraryResponse) (now : Nat) : StorageState :=
  match tokenRes with
  | Except.error _ => markReady st
  | Except.ok token =>
    if !(tokenTruthy token) || st.currentUserId.isNone then
      markReady st
    else
      match fetchRes with
      | Except.error _ => markReady st
      | Except.ok library => syncResolve st library now

/-- Authentication-stream callback installed by the constructor when
remote storage is enabled: on a user, record it, reset the gate and
schedule hydration; on logout, purge the previous user, clear the id and
force the gate resolved. -/
def onAuthChanged (st : StorageState) (user : Option String) : StorageState :=
  match user with
  | some uid =>
    let st1 := { st with currentUserId := some uid }
    let st2 := resetReadyPromise st1 false
    schedule st2 RemoteTask.syncFromRemote
  | none =>
    let st1 :=
      match st.currentUserId with
      | some prev => clearLocalDataForUser st prev
      | none => st
    let st2 := { st1 with currentUserId := none }
    resetReadyPromise st2 true

/-- Settled state of a `Promise<void>`. -/
inductive Settled where
  | fulfilled : Settled
  | rejected : Settled
deriving Repr, DecidableEq

/-- Behaviour of one queued task body when it runs: the Remote Sync
Client invocations it performs before settling, and whether its promise
then fulfills or rejects.  A task that finds no credential performs no
invocation and fulfills. -/
structure QTask where
  calls : List RemoteTask
  fails : Bool
deriving Repr, DecidableEq

/-- Promise `catch`: a rejection is recovered to fulfillment, a
fulfillment passes through. -/
def settleCatch : Settled → Settled
  | Settled.fulfilled => Settled.fulfilled
  | Settled.rejected => Settled.fulfilled

/-- Running a task body by itself. -/
def runTask (t : QTask) : List RemoteTask × Settled :=
  (t.calls, if t.fails then Settled.rejected else Settled.fulfilled)

/-- One link of the chain built by `schedule`, the source text
`prev.then(() => task().catch(log)).catch(log)`: when the previous chain
promise fulfilled, the callback runs the task under its inner catch; when
it rejected, the callback is skipped and the outer catch recovers.  The
result is the trace of invocations of this link and the settled state of
the new chain promise. -/
def scheduleLink (prev : Settled) (t : QTask) : List RemoteTask × Settled :=
  match prev with
  | Settled.fulfilled =>
    let r := runTask t
    (r.1, settleCatch (settleCatch r.2))
  | Settled.rejected => ([], settleCatch Settled.rejected)

/-- Running the whole chain from a given settled state: the trace of
Remote Sync Client invocations, each tagged with the submission index of
the task that performed it, and the final settled state of the chain. -/
def runChainFrom (prev : Settled) : List QTask → List (Nat × RemoteTask) × Settled
  | [] => ([], prev)
  | t :: ts =>
    let r := scheduleLink prev t
    let rest := runChainFrom r.2 ts
    (r.1.map (fun c => (0, c)) ++ rest.1.map (fun p => (p.1 + 1, p.2)), rest.2)

/-- Description, following the words of the spec, of the trace the queue
must produce: every submitted task runs, its invocations appear
contiguously, and blocks follow submission order. -/
def submissionOrderTrace : List QTask → List (Nat × RemoteTask)
  | [] => []
  | t :: ts =>
    t.calls.map (fun c => (0, c)) ++ (submissionOrderTrace ts).map (fun p => (p.1 + 1, p.2))

/-- Concrete song used by scenario states. -/
def songOne : LibrarySong :=
  { id := "song-1", videoId := some "vid-1", title := "Song One", artist := some "Artist" }

/-- Snapshot payload belonging to user A in the hydration race scenario. -/
def libraryA : LibraryResponse :=
  { songs := [songOne]
    ratings := [{ songId := "song-1", rating := 7, ratedAt := some 1000 }]
    themes := []
    songThemes := []
    playlists := [] }

/-- Hydration race scenario, step by step: user A logs in, the hydration
task for A starts and suspends on the snapshot fetch, the session
transitions to user B, then the fetch of the payload of A resolves and the
continuation applies it. -/
def raceAfterLoginA : StorageState := onAuthChanged initialState (some "user-A")

/-- Scenario state after the session switched to user B while the fetch
for A is still in flight. -/
def raceAfterSwitchB : StorageState := onAuthChanged raceAfterLoginA (some "user-B")

/-- Scenario state after the snapshot of A arrives and the hydration
continuation runs against the session of B. -/
def raceResolved : StorageState := syncResolve raceAfterSwitchB libraryA 2000

/-- Concrete state used to witness properties that need a logged-in user
with no cached data. -/
def validationState : StorageState :=
  { initialState with currentUserId := some "user-1" }

/-- Concrete song record used by the populated scenario states. -/
def cachedSong : Song :=
  { id := "s1", videoId := "v1", title := "Cached Song", artist := "Artist" }

/-- Concrete state in which the current user "user-1" has an imported
song, a rating on it and two theme links, and the other user "user-2"
has data of their own in every table. -/
def populatedState : StorageState :=
  { initialState with
    currentUserId := some "user-1"
    ratingsDb :=
      [("user-1", [("s1", { songId := "s1", userId := "user-1", rating := 5, ratedAt := 1 })]),
       ("user-2", [("s2", { songId := "s2", userId := "user-2", rating := 9, ratedAt := 2 })])]
    themesDb :=
      [("user-2", [("t2", { id := "t2", name := "Calm", color := "#00ff00", userId := "user-2", createdAt := 3 })])]
    songThemesDb := [("user-1", [("s1", ["t1", "t2"])]), ("user-2", [("s2", ["t2"])])]
    importedSongsDb :=
      [("user-1", [("s1", cachedSong)]),
       ("user-2", [("s2", { id := "s2", videoId := "v2", title := "Other", artist := "B" })])]
    localPlaylistsDb :=
      [("user-2",
        [("p2", { id := "p2", userId := "user-2", name := "P2", songIds := ["s2"], createdAt := 4, updatedAt := 4 })])] }

/-- Concrete state reached by creating two unstarred playlists for
"user-1" in the same millisecond, so both carry creation time 5. -/
def tieState : StorageState :=
  (createLocalPlaylist
    (createLocalPlaylist initialState "user-1" "first" none none "pl-1" 5).2
    "user-1" "second" none none "pl-2" 5).2

/-- Formal statement of the ordering the claim asserts for
`getLocalPlaylists`: starred playlists strictly precede unstarred ones,
and inside a group creation times are strictly descending. -/
def strictlySortedByClaim (l : List LocalPlaylist) : Prop :=
  List.Pairwise
    (fun a b => (b.starred = true → a.starred = true) ∧
      (a.starred = b.starred → b.createdAt < a.createdAt)) l

/-- Two-task queue scenario: the first task performs one invocation and
then rejects, the second performs one invocation and fulfills. -/
def demoTasks : List QTask :=
  [{ calls := [RemoteTask.deleteRating "s1"], fails := true },
   { calls := [RemoteTask.deleteTheme "t1"], fails := false }]

/-- Frame relation of the per-user isolation property: the two states
agree, on every one of the five tables, at every user other than `u`. -/
def tablesAgreeExcept (u : String) (st st' : StorageState) : Prop :=
  ∀ v, v ≠ u →
    st'.ratingsDb.get v = st.ratingsDb.get v ∧
    st'.themesDb.get v = st.themesDb.get v ∧
    st'.songThemesDb.get v = st.songThemesDb.get v ∧
    st'.importedSongsDb.get v = st.importedSongsDb.get v ∧
    st'.localPlaylistsDb.get v = st.localPlaylistsDb.get v

/-! Lemmas about the JS-object model. -/

theorem ObjMap.get_nil {α : Type} (k : String) : ObjMap.get ([] : ObjMap α) k = none := rfl

theorem ObjMap.get_cons {α : Type} (p : String × α) (m : ObjMap α) (k : String) :
    ObjMap.get (p :: m) k = if p.1 = k then some p.2 else ObjMap.get m k := by
  by_cases h : p.1 = k
  · have hb : (p.1 == k) = true := by simp [h]
    simp [ObjMap.get, List.find?, hb, h]
  · have hb : (p.1 == k) = false := by simp [h]
    simp [ObjMap.get, List.find?, hb, h]

theorem ObjMap.set_cons {α : Type} (p : String × α) (m : ObjMap α) (k : String) (v : α) :
    ObjMap.set (p :: m) k v = if p.1 = k then (k, v) :: m else p :: ObjMap.set m k v := by
  by_cases h : p.1 = k
  · have hb : (p.1 == k) = true := by simp [h]
    simp [ObjMap.set, hb, h]
  · have hb : (p.1 == k) = false := by simp [h]
    simp [ObjMap.set, hb, h]

theorem ObjMap.del_cons {α : Type} (p : String × α) (m : ObjMap α) (k : String) :
    ObjMap.del (p :: m) k = if p.1 = k then ObjMap.del m k else p :: ObjMap.del m k := by
  by_cases h : p.1 = k
  · have hb : (p.1 == k) = true := by simp [h]
    simp [ObjMap.del, List.filter, hb, h]
  · have hb : (p.1 == k) = false := by simp [h]
    simp [ObjMap.del, List.filter, hb, h]

theorem ObjMap.get_set {α : Type} (m : ObjMap α) (k k' : String) (v : α) :
    ObjMap.get (ObjMap.set m k v) k' = if k' = k then some v else ObjMap.get m k' := by
  induction m with
  | nil =>
    by_cases h : k' = k <;> simp [ObjMap.set, ObjMap.get_cons, ObjMap.get_nil, h, Ne.symm]
  | cons p m ih =>
    rw [ObjMap.set_cons]
    by_cases hpk : p.1 = k
    · rw [if_pos hpk, ObjMap.get_cons, ObjMap.get_cons]
      by_cases h : k' = k
      · simp_all
      · have h2 : ¬k = k' := fun e => h e.symm
        simp_all
    · rw [if_neg hpk, ObjMap.get_cons, ObjMap.get_cons, ih]
      by_cases hpk' : p.1 = k'
      · have h : ¬k' = k := fun e => hpk (hpk'.trans e)
        have h2 : ¬k = k' := fun e => h e.symm
        simp_all
      · by_cases h : k' = k <;> simp_all

theorem ObjMap.get_del {α : Type} (m : ObjMap α) (k k' : String) :
    ObjMap.get (ObjMap.del m k) k' = if k' = k then none else ObjMap.get m k' := by
  induction m with
  | nil => by_cases h : k' = k <;> simp [ObjMap.del, ObjMap.get_nil, h]
  | cons p m ih =>
    rw [ObjMap.del_cons]
    by_cases hpk : p.1 = k
    · rw [if_pos hpk, ih, ObjMap.get_cons]
      by_cases h : k' = k
      · simp_all
      · have h2 : ¬k = k' := fun e => h e.symm
        have h3 : ¬p.1 = k' := fun e => h ((e.symm.trans hpk))
        simp_all
    · rw [if_neg hpk, ObjMap.get_cons, ObjMap.get_cons, ih]
      by_cases hpk' : p.1 = k'
      · have h : ¬k' = k := fun e => hpk (hpk'.trans e)
        simp_all
      · by_cases h : k' = k <;> simp_all

theorem ObjMap.has_eq_isSome {α : Type} (m : ObjMap α) (k : String) :
    ObjMap.has m k = (ObjMap.get m k).isSome := by
  induction m with
  | nil => simp [ObjMap.has, ObjMap.get_nil]
  | cons p m ih =>
    rw [ObjMap.get_cons]
    by_cases h : p.1 = k
    · have hb : (p.1 == k) = true := by simp [h]
      simp [ObjMap.has, hb, h]
    · have hb : (p.1 == k) = false := by simp [h]
      simp only [ObjMap.has, List.any_cons, hb, Bool.false_or, if_neg h]
      exact ih

/-! Lemmas about the promise chain of the Sync Task Queue. -/

/-- The chain promise is always recovered to fulfillment by the two
`catch` layers, so starting from a fulfilled chain every task runs and
contributes exactly its block of invocations. -/
theorem runChainFrom_fulfilled (tasks : List QTask) :
    runChainFrom Settled.fulfilled tasks = (submissionOrderTrace tasks, Settled.fulfilled) := by
  induction tasks with
  | nil => rfl
  | cons t ts ih =>
    have h1 : scheduleLink Settled.fulfilled t = (t.calls, Settled.fulfilled) := by
      unfold scheduleLink runTask
      cases t.fails <;> rfl
    simp [runChainFrom, h1, ih, submissionOrderTrace]

/-- Helper: a relation that holds everywhere is pairwise on any list. -/
theorem pairwise_of_total {α : Type} {R : α → α → Prop} (h : ∀ a b, R a b) (l : List α) :
    List.Pairwise R l := by
  induction l with
  | nil => exact List.Pairwise.nil
  | cons x xs ih => exact List.Pairwise.cons (fun y _ => h x y) ih

/-- The task indices along the submission-order trace never decrease. -/
theorem submissionOrderTrace_monotone (tasks : List QTask) :
    List.Pairwise (fun a b => a.1 ≤ b.1) (submissionOrderTrace tasks) := by
  induction tasks with
  | nil => simp [submissionOrderTrace]
  | cons t ts ih =>
    unfold submissionOrderTrace
    rw [List.pairwise_append]
    refine ⟨?_, ?_, ?_⟩
    · rw [List.pairwise_map]
      exact pairwise_of_total (fun a b => Nat.le_refl 0) t.calls
    · rw [List.pairwise_map]
      exact ih.imp (fun h => Nat.succ_le_succ h)
    · intro a ha b hb
      rcases List.mem_map.mp ha with ⟨c, _, rfl⟩
      rcases List.mem_map.mp hb with ⟨p, _, rfl⟩
      exact Nat.zero_le _

/-- C1: tasks submitted to the Sync Task Queue run strictly one after
another in submission order.  The promise chain threads the settled
state of task N into the link of task N+1, so task N+1 cannot start
before task N settles; the resulting trace of Remote Sync Client
invocations, tagged with submission indices, is exactly the per-task
blocks concatenated in submission order, and the indices never decrease
(no interleaving, no overlap). -/
theorem syncQueue_executes_in_submission_order (tasks : List QTask) :
    (runChainFrom Settled.fulfilled tasks).1 = submissionOrderTrace tasks ∧
    List.Pairwise (fun a b => a.1 ≤ b.1) (runChainFrom Settled.fulfilled tasks).1 := by
  rw [runChainFrom_fulfilled]
  exact ⟨rfl, submissionOrderTrace_monotone tasks⟩

/-- C5: a rejected task is caught inside the queue: whatever task fails,
the trace still contains every submitted task exactly once in submission
order (nothing is aborted, skipped or retried) and the chain promise the
next enqueue sees is fulfilled, so the rejection never propagates to the
caller that enqueued the task. -/
theorem syncQueue_failure_isolated (tasks : List QTask) (i : Nat) (hi : i < tasks.length)
    (hfail : (tasks.get ⟨i, hi⟩).fails = true) :
    (runChainFrom Settled.fulfilled tasks).1 = submissionOrderTrace tasks ∧
    (runChainFrom Settled.fulfilled tasks).2 = Settled.fulfilled := by
  rw [runChainFrom_fulfilled]
  exact ⟨rfl, rfl⟩

/-- Witness for C5 at a concrete two-task queue whose first task rejects. -/
theorem syncQueue_failure_isolated_witness :
    (runChainFrom Settled.fulfilled demoTasks).1 = submissionOrderTrace demoTasks ∧
    (runChainFrom Settled.fulfilled demoTasks).2 = Settled.fulfilled :=
  syncQueue_failure_isolated demoTasks 0 (by decide) (by decide)

/-- C2 (evidence of the missing validation): saveRating with the
out-of-range rating 0 writes the rating record into the local table and
enqueues the remote task, so no synchronous rejection happens before the
local and remote mutations. -/
theorem saveRating_out_of_range_mutates :
    getRating (saveRating validationState "user-1" "song-1" 0 5) "user-1" "song-1"
      = some { songId := "song-1", userId := "user-1", rating := 0, ratedAt := 5 } ∧
    (saveRating validationState "user-1" "song-1" 0 5).remoteQueue
      = [RemoteTask.saveRating
          { id := "song-1", videoId := "song-1", title := "Unknown Song", artist := "" } 0] :=
  ⟨rfl, rfl⟩

/-- C3 (evidence of the hydration race): after hydration for user A
starts, the session switches to user B before the snapshot fetch
resolves, and the continuation then stores the payload of A under B, so
a subsequent read by B returns a record that originated in the hydration
payload of A. -/
theorem hydration_race_misattributes :
    raceResolved.currentUserId = some "user-B" ∧
    getRating raceResolved "user-B" "song-1"
      = some { songId := "song-1", userId := "user-B", rating := 7, ratedAt := 1000 } :=
  ⟨rfl, rfl⟩

/-- Hydration never touches the Readiness Gate fields. -/
theorem hydrateCache_gate (st : StorageState) (u : String) (library : LibraryResponse)
    (now : Nat) :
    (hydrateCache st u library now).gate = st.gate ∧
    (hydrateCache st u library now).gateArmed = st.gateArmed :=
  ⟨rfl, rfl⟩

/-- markReady resolves the current promise, given that a null resolver
means the current promise is already resolved. -/
theorem markReady_resolves (st : StorageState)
    (hinv : st.gateArmed = false → st.gate = GateState.resolved) :
    (markReady st).gate = GateState.resolved := by
  unfold markReady
  by_cases h : st.gateArmed
  · simp [h]
  · simp only [h]
    simp only [Bool.false_eq_true, if_false]
    exact hinv (by simpa using h)

/-- C6: every path of a hydration attempt resolves the Readiness Gate:
token acquisition throwing, no usable token, no current user, fetch
rejection and fetch success all run `markReady`, so `waitUntilReady`
neither blocks forever nor rejects after the attempt.  The hypothesis is
the resolver discipline maintained by `resetReadyPromise` and
`markReady`: the resolver is null only when the current promise is
already resolved. -/
theorem readiness_gate_resolves (st : StorageState)
    (hinv : st.gateArmed = false → st.gate = GateState.resolved)
    (tokenRes : Except Unit (Option String)) (fetchRes : Except Unit LibraryResponse)
    (now : Nat) :
    (syncFromRemote st tokenRes fetchRes now).gate = GateState.resolved := by
  cases tokenRes with
  | error e => exact markReady_resolves st hinv
  | ok token =>
    simp only [syncFromRemote]
    split
    · exact markReady_resolves st hinv
    · cases fetchRes with
      | error e => exact markReady_resolves st hinv
      | ok library =>
        simp only [syncResolve]
        refine markReady_resolves _ ?_
        rw [(hydrateCache_gate st _ library now).1, (hydrateCache_gate st _ library now).2]
        exact hinv

/-- Witness for C6 at a concrete failing fetch from the initial state. -/
theorem readiness_gate_resolves_witness :
    (syncFromRemote initialState (Except.ok (some "token")) (Except.error ()) 7).gate
      = GateState.resolved :=
  readiness_gate_resolves initialState (fun _ => rfl) (Except.ok (some "token"))
    (Except.error ()) 7

/-- C4: with remote synchronization enabled, the logout transition of the
authentication stream purges every one of the five tables for the
previously active user, so in particular getAllRatings returns the empty
list for that user. -/
theorem logout_purges_previous_user (st : StorageState) (u : String)
    (hremote : st.remoteEnabled = true) (hcur : st.currentUserId = some u) :
    (onAuthChanged st none).ratingsDb.get u = none ∧
    (onAuthChanged st none).themesDb.get u = none ∧
    (onAuthChanged st none).songThemesDb.get u = none ∧
    (onAuthChanged st none).importedSongsDb.get u = none ∧
    (onAuthChanged st none).localPlaylistsDb.get u = none ∧
    getAllRatings (onAuthChanged st none) u = [] := by
  simp only [onAuthChanged, hcur, clearLocalDataForUser, resetReadyPromise, markReady,
    getAllRatings]
  simp [ObjMap.get_del, ObjMap.values]

/-- Witness for C4 at a concrete two-user state. -/
theorem logout_purges_previous_user_witness :
    (onAuthChanged populatedState none).ratingsDb.get "user-1" = none ∧
    (onAuthChanged populatedState none).themesDb.get "user-1" = none ∧
    (onAuthChanged populatedState none).songThemesDb.get "user-1" = none ∧
    (onAuthChanged populatedState none).importedSongsDb.get "user-1" = none ∧
    (onAuthChanged populatedState none).localPlaylistsDb.get "user-1" = none ∧
    getAllRatings (onAuthChanged populatedState none) "user-1" = [] :=
  logout_purges_previous_user populatedState "user-1" rfl rfl

/-- saveRating writes exactly the given record into the per-user table. -/
theorem saveRating_ratingsDb (st : StorageState) (u s : String) (r : Int) (now : Nat) :
    (saveRating st u s r now).ratingsDb
      = st.ratingsDb.set u
          (((st.ratingsDb.get u).getD []).set s
            { songId := s, userId := u, rating := r, ratedAt := now }) := by
  simp only [saveRating, enqueueAuthorizedTask, schedule]
  split
  · split <;> rfl
  · rfl

/-- saveRating only ever appends to the task queue. -/
theorem saveRating_queue (st : StorageState) (u s : String) (r : Int) (now : Nat) :
    ∃ pending, (saveRating st u s r now).remoteQueue = st.remoteQueue ++ pending := by
  simp only [saveRating, enqueueAuthorizedTask, schedule]
  split
  · split
    · exact ⟨_, rfl⟩
    · exact ⟨[], (List.append_nil _).symm⟩
  · exact ⟨[], (List.append_nil _).symm⟩

/-- C8: for a rating in range, saveRating immediately followed by
getRating in the same tick returns the stored record with that rating,
and the call leaves the previously queued tasks untouched (it only
appends), so the round-trip is independent of the queue state. -/
theorem saveRating_then_getRating (st : StorageState) (u s : String) (r : Int) (now : Nat)
    (h1 : 1 ≤ r) (h2 : r ≤ 10) :
    getRating (saveRating st u s r now) u s
      = some { songId := s, userId := u, rating := r, ratedAt := now } ∧
    ∃ pending, (saveRating st u s r now).remoteQueue = st.remoteQueue ++ pending := by
  refine ⟨?_, saveRating_queue st u s r now⟩
  unfold getRating
  rw [saveRating_ratingsDb, ObjMap.get_set]
  simp [ObjMap.get_set]

/-- Witness for C8 at rating 7 over the populated state. -/
theorem saveRating_then_getRating_witness :
    getRating (saveRating populatedState "user-1" "s9" 7 42) "user-1" "s9"
      = some { songId := "s9", userId := "user-1", rating := 7, ratedAt := 42 } ∧
    ∃ pending, (saveRating populatedState "user-1" "s9" 7 42).remoteQueue
      = populatedState.remoteQueue ++ pending :=
  saveRating_then_getRating populatedState "user-1" "s9" 7 42 (by decide) (by decide)

/-- C9 counterexample: two unstarred playlists created in the same
millisecond tie on creation time, so the returned list cannot be
strictly descending in creation time within the unstarred group. -/
theorem getLocalPlaylists_not_strictly_sorted :
    ¬ strictlySortedByClaim (getLocalPlaylists tieState "user-1") := by
  unfold strictlySortedByClaim
  decide

/-- C9 (amended): getLocalPlaylists returns the playlists with every
starred playlist before every unstarred one and, within each group,
creation times in non-increasing order (ties between equal creation
times are allowed and keep insertion order, the stable-sort behaviour). -/
theorem getLocalPlaylists_sorted (st : StorageState) (u : String) :
    List.Pairwise
      (fun a b => (b.starred = true → a.starred = true) ∧
        (a.starred = b.starred → b.createdAt ≤ a.createdAt))
      (getLocalPlaylists st u) := by
  refine (List.sorted_insertionSort playlistBefore
    (((st.localPlaylistsDb.get u).getD []).values)).imp ?_
  intro a b hab
  unfold playlistBefore playlistCmp at hab
  obtain ⟨_, _, _, _, _, _, ca, _, _, sa⟩ := a
  obtain ⟨_, _, _, _, _, _, cb, _, _, sb⟩ := b
  cases sa <;> cases sb <;> simp at hab ⊢ <;> omega

theorem ObjMap.get_eq_none_of_has_false {α : Type} (m : ObjMap α) (k : String)
    (h : m.has k = false) : m.get k = none := by
  have h2 := ObjMap.has_eq_isSome m k
  rw [h] at h2
  cases hg : m.get k with
  | none => rfl
  | some v => rw [hg] at h2; simp at h2

/-- removeImportedSong leaves every field except the imported-song table
and the queue untouched. -/
theorem removeImportedSong_fields (st : StorageState) (u s : String) :
    (removeImportedSong st u s).ratingsDb = st.ratingsDb ∧
    (removeImportedSong st u s).themesDb = st.themesDb ∧
    (removeImportedSong st u s).songThemesDb = st.songThemesDb ∧
    (removeImportedSong st u s).localPlaylistsDb = st.localPlaylistsDb ∧
    (removeImportedSong st u s).remoteEnabled = st.remoteEnabled ∧
    (removeImportedSong st u s).currentUserId = st.currentUserId := by
  simp only [removeImportedSong, enqueueAuthorizedTask, schedule]
  repeat' split
  all_goals exact ⟨rfl, rfl, rfl, rfl, rfl, rfl⟩

/-- After removeImportedSong the song record of the given user is gone. -/
theorem removeImportedSong_gone (st : StorageState) (u s : String) :
    getImportedSong (removeImportedSong st u s) u s = none := by
  cases hg : st.importedSongsDb.get u with
  | none => simp [removeImportedSong, getImportedSong, hg]
  | some userMap =>
    cases hs : userMap.has s with
    | false =>
      simp [removeImportedSong, getImportedSong, hg, hs,
        ObjMap.get_eq_none_of_has_false userMap s hs]
    | true =>
      simp only [removeImportedSong, getImportedSong, enqueueAuthorizedTask, schedule, hg, hs,
        if_true]
      split
      · split <;> simp [ObjMap.get_set, ObjMap.get_del]
      · simp [ObjMap.get_set, ObjMap.get_del]

/-- Queue effect of removeImportedSong when the given user is current. -/
theorem removeImportedSong_queue (st : StorageState) (u s : String)
    (hremote : st.remoteEnabled = true) (hcur : st.currentUserId = some u) :
    (removeImportedSong st u s).remoteQueue
      = st.remoteQueue
        ++ (if (getImportedSong st u s).isSome then [RemoteTask.removeImportedSong s] else []) := by
  cases hg : st.importedSongsDb.get u with
  | none => simp [removeImportedSong, getImportedSong, hg]
  | some userMap =>
    cases hs : userMap.has s with
    | false =>
      simp [removeImportedSong, getImportedSong, hg, hs,
        ObjMap.get_eq_none_of_has_false userMap s hs]
    | true =>
      have hsome : (userMap.get s).isSome = true := by
        rw [← ObjMap.has_eq_isSome, hs]
      simp [removeImportedSong, getImportedSong, enqueueAuthorizedTask, schedule, hg, hs,
        isCurrentUser, hremote, hcur, hsome]

/-- deleteRating leaves every field except the ratings table and the
queue untouched. -/
theorem deleteRating_fields (st : StorageState) (u s : String) :
    (deleteRating st u s).importedSongsDb = st.importedSongsDb ∧
    (deleteRating st u s).themesDb = st.themesDb ∧
    (deleteRating st u s).songThemesDb = st.songThemesDb ∧
    (deleteRating st u s).localPlaylistsDb = st.localPlaylistsDb ∧
    (deleteRating st u s).remoteEnabled = st.remoteEnabled ∧
    (deleteRating st u s).currentUserId = st.currentUserId := by
  simp only [deleteRating, enqueueAuthorizedTask, schedule]
  repeat' split
  all_goals exact ⟨rfl, rfl, rfl, rfl, rfl, rfl⟩

/-- After deleteRating the rating record of the given user is gone. -/
theorem deleteRating_gone (st : StorageState) (u s : String) :
    getRating (deleteRating st u s) u s = none := by
  cases hg : st.ratingsDb.get u with
  | none => simp [deleteRating, getRating, hg]
  | some userMap =>
    cases hs : userMap.has s with
    | false =>
      simp [deleteRating, getRating, hg, hs,
        ObjMap.get_eq_none_of_has_false userMap s hs]
    | true =>
      simp only [deleteRating, getRating, enqueueAuthorizedTask, schedule, hg, hs, if_true]
      split
      · split <;> simp [ObjMap.get_set, ObjMap.get_del]
      · simp [ObjMap.get_set, ObjMap.get_del]

/-- Queue effect of deleteRating when the given user is current. -/
theorem deleteRating_queue (st : StorageState) (u s : String)
    (hremote : st.remoteEnabled = true) (hcur : st.currentUserId = some u) :
    (deleteRating st u s).remoteQueue
      = st.remoteQueue
        ++ (if (getRating st u s).isSome then [RemoteTask.deleteRating s] else []) := by
  cases hg : st.ratingsDb.get u with
  | none => simp [deleteRating, getRating, hg]
  | some userMap =>
    cases hs : userMap.has s with
    | false =>
      simp [deleteRating, getRating, hg, hs,
        ObjMap.get_eq_none_of_has_false userMap s hs]
    | true =>
      have hsome : (userMap.get s).isSome = true := by
        rw [← ObjMap.has_eq_isSome, hs]
      simp [deleteRating, getRating, enqueueAuthorizedTask, schedule, hg, hs,
        isCurrentUser, hremote, hcur, hsome]

/-- Full effect of one removeThemeFromSong call on a song that has a link
entry, with the given user current: the entry is filtered, one task is
appended, and nothing else changes. -/
theorem removeThemeFromSong_effect (st : StorageState) (u s t : String) (links : List String)
    (hremote : st.remoteEnabled = true) (hcur : st.currentUserId = some u)
    (hlinks : (st.songThemesDb.get u).bind (fun m => m.get s) = some links) :
    ((removeThemeFromSong st u s t).songThemesDb.get u).bind (fun m => m.get s)
      = some (links.filter (fun id => !(id == t))) ∧
    (removeThemeFromSong st u s t).remoteQueue
      = st.remoteQueue ++ [RemoteTask.removeTheme s t] ∧
    (removeThemeFromSong st u s t).ratingsDb = st.ratingsDb ∧
    (removeThemeFromSong st u s t).importedSongsDb = st.importedSongsDb ∧
    (removeThemeFromSong st u s t).remoteEnabled = true ∧
    (removeThemeFromSong st u s t).currentUserId = some u := by
  cases hg : st.songThemesDb.get u with
  | none => rw [hg] at hlinks; simp at hlinks
  | some userMap =>
    rw [hg] at hlinks
    simp only [Option.some_bind] at hlinks
    simp only [removeThemeFromSong, enqueueAuthorizedTask, schedule, hg, hlinks,
      Option.some_bind, Option.getD_some]
    simp [isCurrentUser, hremote, hcur, ObjMap.get_set, hlinks]

/-- Folding removeThemeFromSong over a list of theme ids filters them all
out of the link entry and appends one task per id, in order. -/
theorem removeThemes_fold (u s : String) (rs : List String) :
    ∀ (st : StorageState) (links : List String),
      st.remoteEnabled = true → st.currentUserId = some u →
      (st.songThemesDb.get u).bind (fun m => m.get s) = some links →
      ((rs.foldl (fun acc t => removeThemeFromSong acc u s t) st).songThemesDb.get u).bind
          (fun m => m.get s) = some (links.filter (fun id => !(rs.contains id))) ∧
      (rs.foldl (fun acc t => removeThemeFromSong acc u s t) st).remoteQueue
          = st.remoteQueue ++ rs.map (fun t => RemoteTask.removeTheme s t) ∧
      (rs.foldl (fun acc t => removeThemeFromSong acc u s t) st).ratingsDb = st.ratingsDb ∧
      (rs.foldl (fun acc t => removeThemeFromSong acc u s t) st).importedSongsDb
          = st.importedSongsDb ∧
      (rs.foldl (fun acc t => removeThemeFromSong acc u s t) st).remoteEnabled = true ∧
      (rs.foldl (fun acc t => removeThemeFromSong acc u s t) st).currentUserId = some u := by
  induction rs with
  | nil =>
    intro st links h1 h2 h3
    refine ⟨?_, by simp, rfl, rfl, h1, h2⟩
    simpa using h3
  | cons r rs ih =>
    intro st links h1 h2 h3
    have he := removeThemeFromSong_effect st u s r links h1 h2 h3
    have ihr := ih (removeThemeFromSong st u s r) (links.filter (fun id => !(id == r)))
      he.2.2.2.2.1 he.2.2.2.2.2 he.1
    simp only [List.foldl_cons]
    refine ⟨?_, ?_, ?_, ?_, ihr.2.2.2.2.1, ihr.2.2.2.2.2⟩
    · rw [ihr.1, List.filter_filter]
      congr 1
      apply List.filter_congr
      intro x hx
      rw [List.contains_cons]
      cases hxa : x == r <;> cases hxb : rs.contains x <;> rfl
    · rw [ihr.2.1, he.2.1, List.append_assoc]
      rfl
    · rw [ihr.2.2.1, he.2.2.1]
    · rw [ihr.2.2.2.1, he.2.2.2.1]

/-- C7: deleteSong removes, in the same synchronous call, the imported
song record, the rating record and every song-theme link of the song,
and the call only appends remote tasks to the queue, one per performed
removal, in cascade order; no task is executed or awaited. -/
theorem deleteSong_cascades (st : StorageState) (u s : String)
    (hremote : st.remoteEnabled = true) (hcur : st.currentUserId = some u) :
    getImportedSong (deleteSong st u s) u s = none ∧
    getRating (deleteSong st u s) u s = none ∧
    getSongThemes (deleteSong st u s) u s = [] ∧
    (deleteSong st u s).remoteQueue
      = st.remoteQueue
        ++ (if (getImportedSong st u s).isSome then [RemoteTask.removeImportedSong s] else [])
        ++ (if (getRating st u s).isSome then [RemoteTask.deleteRating s] else [])
        ++ (getSongThemes st u s).map (fun t => RemoteTask.removeTheme s t) := by
  have f1 := removeImportedSong_fields st u s
  have st1rem : (removeImportedSong st u s).remoteEnabled = true := by
    rw [f1.2.2.2.2.1, hremote]
  have st1cur : (removeImportedSong st u s).currentUserId = some u := by
    rw [f1.2.2.2.2.2, hcur]
  have f2 := deleteRating_fields (removeImportedSong st u s) u s
  have st2rem : (deleteRating (removeImportedSong st u s) u s).remoteEnabled = true := by
    rw [f2.2.2.2.2.1, st1rem]
  have st2cur : (deleteRating (removeImportedSong st u s) u s).currentUserId = some u := by
    rw [f2.2.2.2.2.2, st1cur]
  have hst2themes : (deleteRating (removeImportedSong st u s) u s).songThemesDb
      = st.songThemesDb := by
    rw [f2.2.2.1, f1.2.2.1]
  have hq1 := removeImportedSong_queue st u s hremote hcur
  have hq2 := deleteRating_queue (removeImportedSong st u s) u s st1rem st1cur
  have hrating1 : getRating (removeImportedSong st u s) u s = getRating st u s := by
    unfold getRating
    rw [f1.1]
  have himp2 : (deleteRating (removeImportedSong st u s) u s).importedSongsDb
      = (removeImportedSong st u s).importedSongsDb := f2.1
  have hthemes2 : getSongThemes (deleteSong st u s) u s = []
      ∧ (deleteSong st u s).remoteQueue
        = (deleteRating (removeImportedSong st u s) u s).remoteQueue
          ++ (getSongThemes st u s).map (fun t => RemoteTask.removeTheme s t)
      ∧ (deleteSong st u s).ratingsDb
        = (deleteRating (removeImportedSong st u s) u s).ratingsDb
      ∧ (deleteSong st u s).importedSongsDb
        = (deleteRating (removeImportedSong st u s) u s).importedSongsDb := by
    simp only [deleteSong]
    cases hlinks : ((deleteRating (removeImportedSong st u s) u s).songThemesDb.get u).bind
        (fun m => m.get s) with
    | none =>
      have hempty : getSongThemes (deleteRating (removeImportedSong st u s) u s) u s = [] := by
        unfold getSongThemes
        rw [hlinks]
        rfl
      have hempty0 : getSongThemes st u s = [] := by
        unfold getSongThemes at hempty ⊢
        rw [← hst2themes]
        exact hempty
      rw [hempty]
      simp only [List.foldl_nil]
      refine ⟨?_, ?_, ?_, ?_⟩
      · unfold getSongThemes
        rw [hlinks]
        rfl
      · rw [hempty0]
        simp
      · trivial
      · trivial
    | some links =>
      have hsame : getSongThemes (deleteRating (removeImportedSong st u s) u s) u s = links := by
        unfold getSongThemes
        rw [hlinks]
        rfl
      have hsame0 : getSongThemes st u s = links := by
        unfold getSongThemes at hsame ⊢
        rw [← hst2themes]
        exact hsame
      rw [hsame]
      have hf := removeThemes_fold u s links (deleteRating (removeImportedSong st u s) u s)
        links st2rem st2cur hlinks
      refine ⟨?_, ?_, hf.2.2.1, hf.2.2.2.1⟩
      · unfold getSongThemes
        rw [hf.1]
        have : links.filter (fun id => !(links.contains id)) = [] := by
          rw [List.filter_eq_nil]
          intro a ha
          simp [List.elem_eq_mem, ha]
        rw [this]
        rfl
      · rw [hf.2.1, hsame0]
  refine ⟨?_, ?_, hthemes2.1, ?_⟩
  · unfold getImportedSong
    rw [hthemes2.2.2.2, himp2]
    have := removeImportedSong_gone st u s
    unfold getImportedSong at this
    exact this
  · unfold getRating
    rw [hthemes2.2.2.1]
    have h := deleteRating_gone (removeImportedSong st u s) u s
    unfold getRating at h
    exact h
  · rw [hthemes2.2.1, hq2, hrating1, hq1]

/-- Witness for C7 at the populated state: user-1 is current, song s1 is
imported, rated and linked to two themes. -/
theorem deleteSong_cascades_witness :
    getImportedSong (deleteSong populatedState "user-1" "s1") "user-1" "s1" = none ∧
    getRating (deleteSong populatedState "user-1" "s1") "user-1" "s1" = none ∧
    getSongThemes (deleteSong populatedState "user-1" "s1") "user-1" "s1" = [] ∧
    (deleteSong populatedState "user-1" "s1").remoteQueue
      = populatedState.remoteQueue
        ++ (if (getImportedSong populatedState "user-1" "s1").isSome then
              [RemoteTask.removeImportedSong "s1"] else [])
        ++ (if (getRating populatedState "user-1" "s1").isSome then
              [RemoteTask.deleteRating "s1"] else [])
        ++ (getSongThemes populatedState "user-1" "s1").map
            (fun t => RemoteTask.removeTheme "s1" t) :=
  deleteSong_cascades populatedState "user-1" "s1" rfl rfl

/-! Frame lemmas: every mutating operation leaves the five tables of any
other user untouched. -/

theorem tablesAgreeExcept_refl (u : String) (st : StorageState) :
    tablesAgreeExcept u st st :=
  fun _ _ => ⟨rfl, rfl, rfl, rfl, rfl⟩

theorem tablesAgreeExcept_trans {u : String} {st1 st2 st3 : StorageState}
    (h1 : tablesAgreeExcept u st1 st2) (h2 : tablesAgreeExcept u st2 st3) :
    tablesAgreeExcept u st1 st3 := by
  intro v hv
  obtain ⟨a1, b1, c1, d1, e1⟩ := h1 v hv
  obtain ⟨a2, b2, c2, d2, e2⟩ := h2 v hv
  exact ⟨a2.trans a1, b2.trans b1, c2.trans c1, d2.trans d1, e2.trans e1⟩

theorem saveRating_frame (st : StorageState) (u s : String) (r : Int) (now : Nat) :
    tablesAgreeExcept u st (saveRating st u s r now) := by
  intro v hv
  simp only [saveRating, enqueueAuthorizedTask, schedule]
  repeat' split
  all_goals refine ⟨?_, ?_, ?_, ?_, ?_⟩ <;> simp [ObjMap.get_set, ObjMap.get_del, hv]

theorem deleteRating_frame (st : StorageState) (u s : String) :
    tablesAgreeExcept u st (deleteRating st u s) := by
  intro v hv
  simp only [deleteRating, enqueueAuthorizedTask, schedule]
  repeat' split
  all_goals refine ⟨?_, ?_, ?_, ?_, ?_⟩ <;> simp [ObjMap.get_set, ObjMap.get_del, hv]

theorem clearUserRatings_frame (st : StorageState) (u : String) :
    tablesAgreeExcept u st (clearUserRatings st u) := by
  intro v hv
  simp only [clearUserRatings, enqueueAuthorizedTask, schedule]
  repeat' split
  all_goals refine ⟨?_, ?_, ?_, ?_, ?_⟩ <;> simp [ObjMap.get_set, ObjMap.get_del, hv]

theorem createTheme_frame (st : StorageState) (u nm col gid : String) (now : Nat) :
    tablesAgreeExcept u st (createTheme st u nm col gid now).2 := by
  intro v hv
  simp only [createTheme, upsertThemeLocally, persistThemeToRemote, enqueueAuthorizedTask,
    schedule]
  repeat' split
  all_goals refine ⟨?_, ?_, ?_, ?_, ?_⟩ <;> simp [ObjMap.get_set, ObjMap.get_del, hv]

theorem updateTheme_frame (st : StorageState) (u tid nm col : String) :
    tablesAgreeExcept u st (updateTheme st u tid nm col) := by
  intro v hv
  simp only [updateTheme, getTheme, persistThemeToRemote, enqueueAuthorizedTask, schedule]
  repeat' split
  all_goals refine ⟨?_, ?_, ?_, ?_, ?_⟩ <;> simp [ObjMap.get_set, ObjMap.get_del, hv]

theorem removeThemeFromAllSongs_frame (st : StorageState) (u tid : String) :
    tablesAgreeExcept u st (removeThemeFromAllSongs st u tid) := by
  intro v hv
  simp only [removeThemeFromAllSongs]
  repeat' split
  all_goals refine ⟨?_, ?_, ?_, ?_, ?_⟩ <;> simp [ObjMap.get_set, ObjMap.get_del, hv]

theorem deleteTheme_frame (st : StorageState) (u tid : String) :
    tablesAgreeExcept u st (deleteTheme st u tid) := by
  intro v hv
  simp only [deleteTheme, removeThemeFromAllSongs, enqueueAuthorizedTask, schedule]
  repeat' split
  all_goals refine ⟨?_, ?_, ?_, ?_, ?_⟩ <;> simp [ObjMap.get_set, ObjMap.get_del, hv]

theorem assignThemeToSong_frame (st : StorageState) (u s tid : String) :
    tablesAgreeExcept u st (assignThemeToSong st u s tid) := by
  intro v hv
  simp only [assignThemeToSong, enqueueAuthorizedTask, schedule]
  repeat' split
  all_goals refine ⟨?_, ?_, ?_, ?_, ?_⟩ <;> simp [ObjMap.get_set, ObjMap.get_del, hv]

theorem removeThemeFromSong_frame (st : StorageState) (u s tid : String) :
    tablesAgreeExcept u st (removeThemeFromSong st u s tid) := by
  intro v hv
  simp only [removeThemeFromSong, enqueueAuthorizedTask, schedule]
  repeat' split
  all_goals refine ⟨?_, ?_, ?_, ?_, ?_⟩ <;> simp [ObjMap.get_set, ObjMap.get_del, hv]

theorem saveImportedSongs_frame (st : StorageState) (u : String) (songs : List Song) :
    tablesAgreeExcept u st (saveImportedSongs st u songs) := by
  intro v hv
  simp only [saveImportedSongs, enqueueAuthorizedTask, schedule]
  repeat' split
  all_goals refine ⟨?_, ?_, ?_, ?_, ?_⟩ <;> simp [ObjMap.get_set, ObjMap.get_del, hv]

theorem removeImportedSong_frame (st : StorageState) (u s : String) :
    tablesAgreeExcept u st (removeImportedSong st u s) := by
  intro v hv
  simp only [removeImportedSong, enqueueAuthorizedTask, schedule]
  repeat' split
  all_goals refine ⟨?_, ?_, ?_, ?_, ?_⟩ <;> simp [ObjMap.get_set, ObjMap.get_del, hv]

theorem foldRemoveTheme_frame (u s : String) (rs : List String) (st : StorageState) :
    tablesAgreeExcept u st (rs.foldl (fun acc t => removeThemeFromSong acc u s t) st) := by
  induction rs generalizing st with
  | nil => exact tablesAgreeExcept_refl u st
  | cons r rs ih =>
    simp only [List.foldl_cons]
    exact tablesAgreeExcept_trans (removeThemeFromSong_frame st u s r) (ih _)

theorem deleteSong_frame (st : StorageState) (u s : String) :
    tablesAgreeExcept u st (deleteSong st u s) := by
  simp only [deleteSong]
  exact tablesAgreeExcept_trans (removeImportedSong_frame st u s)
    (tablesAgreeExcept_trans (deleteRating_frame (removeImportedSong st u s) u s)
      (foldRemoveTheme_frame u s _ _))

theorem createLocalPlaylist_frame (st : StorageState) (u nm : String)
    (desc : Option String) (filt : Option PlaylistFilters) (gid : String) (now : Nat) :
    tablesAgreeExcept u st (createLocalPlaylist st u nm desc filt gid now).2 := by
  intro v hv
  simp only [createLocalPlaylist, upsertLocalPlaylist, persistPlaylistToRemote,
    enqueueAuthorizedTask, schedule]
  repeat' split
  all_goals refine ⟨?_, ?_, ?_, ?_, ?_⟩ <;> simp [ObjMap.get_set, ObjMap.get_del, hv]

theorem updateLocalPlaylist_frame (st : StorageState) (u pid : String)
    (updates : PlaylistUpdates) (now : Nat) :
    tablesAgreeExcept u st (updateLocalPlaylist st u pid updates now) := by
  intro v hv
  simp only [updateLocalPlaylist, getLocalPlaylist, upsertLocalPlaylist,
    persistPlaylistToRemote, enqueueAuthorizedTask, schedule]
  repeat' split
  all_goals refine ⟨?_, ?_, ?_, ?_, ?_⟩ <;> simp [ObjMap.get_set, ObjMap.get_del, hv]

theorem deleteLocalPlaylist_frame (st : StorageState) (u pid : String) :
    tablesAgreeExcept u st (deleteLocalPlaylist st u pid) := by
  intro v hv
  simp only [deleteLocalPlaylist, enqueueAuthorizedTask, schedule]
  repeat' split
  all_goals refine ⟨?_, ?_, ?_, ?_, ?_⟩ <;> simp [ObjMap.get_set, ObjMap.get_del, hv]

theorem addSongToLocalPlaylist_frame (st : StorageState) (u pid s : String) (now : Nat) :
    tablesAgreeExcept u st (addSongToLocalPlaylist st u pid s now) := by
  intro v hv
  simp only [addSongToLocalPlaylist, getLocalPlaylist, persistPlaylistToRemote,
    enqueueAuthorizedTask, schedule]
  repeat' split
  all_goals refine ⟨?_, ?_, ?_, ?_, ?_⟩ <;> simp [ObjMap.get_set, ObjMap.get_del, hv]

theorem addSongsToLocalPlaylist_frame (st : StorageState) (u pid : String)
    (songIds : List String) (now : Nat) :
    tablesAgreeExcept u st (addSongsToLocalPlaylist st u pid songIds now) := by
  intro v hv
  simp only [addSongsToLocalPlaylist, getLocalPlaylist, persistPlaylistToRemote,
    enqueueAuthorizedTask, schedule]
  repeat' split
  all_goals refine ⟨?_, ?_, ?_, ?_, ?_⟩ <;> simp [ObjMap.get_set, ObjMap.get_del, hv]

theorem removeSongFromLocalPlaylist_frame (st : StorageState) (u pid s : String) (now : Nat) :
    tablesAgreeExcept u st (removeSongFromLocalPlaylist st u pid s now) := by
  intro v hv
  simp only [removeSongFromLocalPlaylist, getLocalPlaylist, persistPlaylistToRemote,
    enqueueAuthorizedTask, schedule]
  repeat' split
  all_goals refine ⟨?_, ?_, ?_, ?_, ?_⟩ <;> simp [ObjMap.get_set, ObjMap.get_del, hv]

theorem togglePlaylistStarred_frame (st : StorageState) (u pid : String) (now : Nat) :
    tablesAgreeExcept u st (togglePlaylistStarred st u pid now) := by
  intro v hv
  simp only [togglePlaylistStarred, getLocalPlaylist, persistPlaylistToRemote,
    enqueueAuthorizedTask, schedule]
  repeat' split
  all_goals refine ⟨?_, ?_, ?_, ?_, ?_⟩ <;> simp [ObjMap.get_set, ObjMap.get_del, hv]

theorem clearLocalPlaylists_frame (st : StorageState) (u : String) :
    tablesAgreeExcept u st (clearLocalPlaylists st u) := by
  intro v hv
  simp only [clearLocalPlaylists, enqueueAuthorizedTask, schedule]
  repeat' split
  all_goals refine ⟨?_, ?_, ?_, ?_, ?_⟩ <;> simp [ObjMap.get_set, ObjMap.get_del, hv]

theorem clearLocalDataForUser_frame (st : StorageState) (u : String) :
    tablesAgreeExcept u st (clearLocalDataForUser st u) := by
  intro v hv
  simp only [clearLocalDataForUser]
  refine ⟨?_, ?_, ?_, ?_, ?_⟩ <;> simp [ObjMap.get_del, hv]

/-- C10: every public mutating operation invoked for user u, and the
logout purge, leaves the per-user sub-maps of every other user unchanged
across all five tables. -/
theorem mutators_preserve_other_users (st : StorageState) (u s tid pid nm col gid : String)
    (r : Int) (now : Nat) (songs : List Song) (songIds : List String)
    (desc : Option String) (filt : Option PlaylistFilters) (updates : PlaylistUpdates) :
    tablesAgreeExcept u st (saveRating st u s r now) ∧
    tablesAgreeExcept u st (deleteRating st u s) ∧
    tablesAgreeExcept u st (clearUserRatings st u) ∧
    tablesAgreeExcept u st (createTheme st u nm col gid now).2 ∧
    tablesAgreeExcept u st (updateTheme st u tid nm col) ∧
    tablesAgreeExcept u st (deleteTheme st u tid) ∧
    tablesAgreeExcept u st (assignThemeToSong st u s tid) ∧
    tablesAgreeExcept u st (removeThemeFromSong st u s tid) ∧
    tablesAgreeExcept u st (saveImportedSongs st u songs) ∧
    tablesAgreeExcept u st (removeImportedSong st u s) ∧
    tablesAgreeExcept u st (deleteSong st u s) ∧
    tablesAgreeExcept u st (createLocalPlaylist st u nm desc filt gid now).2 ∧
    tablesAgreeExcept u st (updateLocalPlaylist st u pid updates now) ∧
    tablesAgreeExcept u st (deleteLocalPlaylist st u pid) ∧
    tablesAgreeExcept u st (addSongToLocalPlaylist st u pid s now) ∧
    tablesAgreeExcept u st (addSongsToLocalPlaylist st u pid songIds now) ∧
    tablesAgreeExcept u st (removeSongFromLocalPlaylist st u pid s now) ∧
    tablesAgreeExcept u st (togglePlaylistStarred st u pid now) ∧
    tablesAgreeExcept u st (clearLocalPlaylists st u) ∧
    tablesAgreeExcept u st (clearLocalDataForUser st u) :=
  ⟨saveRating_frame st u s r now, deleteRating_frame st u s, clearUserRatings_frame st u,
   createTheme_frame st u nm col gid now, updateTheme_frame st u tid nm col,
   deleteTheme_frame st u tid, assignThemeToSong_frame st u s tid,
   removeThemeFromSong_frame st u s tid, saveImportedSongs_frame st u songs,
   removeImportedSong_frame st u s, deleteSong_frame st u s,
   createLocalPlaylist_frame st u nm desc filt gid now,
   updateLocalPlaylist_frame st u pid updates now, deleteLocalPlaylist_frame st u pid,
   addSongToLocalPlaylist_frame st u pid s now,
   addSongsToLocalPlaylist_frame st u pid songIds now,
   removeSongFromLocalPlaylist_frame st u pid s now,
   togglePlaylistStarred_frame st u pid now, clearLocalPlaylists_frame st u,
   clearLocalDataForUser_frame st u⟩

/-- Witness for C10: a saveRating call and the logout purge for user-1
leave the tables of user-2 unchanged in the populated state. -/
theorem mutators_preserve_other_users_witness :
    (saveRating populatedState "user-1" "s1" 8 9).ratingsDb.get "user-2"
        = populatedState.ratingsDb.get "user-2" ∧
    (clearLocalDataForUser populatedState "user-1").localPlaylistsDb.get "user-2"
        = populatedState.localPlaylistsDb.get "user-2" := by
  have h := mutators_preserve_other_users populatedState "user-1" "s1" "t1" "p1" "N" "#fff"
    "gid" 8 9 [] [] none none {}
  exact ⟨(h.1 "user-2" (by decide)).1,
    ((h.2.2.2.2.2.2.2.2.2.2.2.2.2.2.2.2.2.2.2 "user-2" (by decide)).2.2.2.2)⟩

end Storage
